import Mathlib

/-!
# Verification of the Marketo template exporter core

Shallow embedding of the token-lifecycle-aware API client with resilient
paginated export, translated from the two source documents of
`src/lib/marketo-client.js`:

* the library `MarketoClient` class (token cache `getAccessToken`,
  paginated `getAllTemplates`, content flattening `extractHtmlContent`,
  per-template `exportTemplate`, orchestrating `exportAllTemplates`);
* the original route code (`getMarketoAccessToken`, `getFolderDetails` /
  `buildFolderPath` / `formatFolderPath`, `fetchContentJsonBackup` /
  `fetchEmailHtmlContent`, `bulkExportTemplates` / `processTemplate`).

Network I/O is modelled by explicit provider functions (`serve`,
`lookup`, `fetchContent`); time is an explicit `now : Int` in epoch
milliseconds; the unbounded JS loops and the recursive folder walk get a
`fuel` parameter, `none` meaning the computation has not terminated
within `fuel` iterations / stack frames.
-/

namespace Marketo

/-- JavaScript truthiness of an optional string (`!x` is true for
`undefined`/`null` and for the empty string). -/
def jsTruthyStr (s : Option String) : Bool :=
  match s with
  | none => false
  | some v => v ≠ ""

/-- JavaScript truthiness of an optional number (`!x` is true for
`undefined`/`null` and for `0`). -/
def jsTruthyInt (x : Option Int) : Bool :=
  match x with
  | none => false
  | some n => n ≠ 0

/-! ## Token store / authenticator

Library: `MarketoClient.authenticate` / `MarketoClient.getAccessToken`
(marketo-client.js lines 16–37).  Route: `getMarketoAccessToken`
(lines 190–241).  The successful identity exchange is modelled by an
`AuthResponse` argument (the JSON body `{access_token, expires_in}`);
the credential-validation and network-failure paths of the source throw
before any token is stored and are not needed by the claims. -/

/-- JSON body of a successful identity exchange:
`{access_token: string, expires_in: number(seconds)}`. -/
structure AuthResponse where
  access_token : String
  expires_in : Int
deriving Repr, DecidableEq

/-- Mutable token state of the library `MarketoClient`
(`this.accessToken`, `this.tokenExpiry`).  `tokenExpiry` is only read
when `accessToken` is truthy, so the initial JS `null` expiry needs no
separate representation. -/
structure ClientTokenState where
  accessToken : Option String
  tokenExpiry : Int
deriving Repr, DecidableEq

/-- Library `authenticate` (lines 16–30), success path: stores the token
and `Date.now() + expires_in * 1000`, returns the token. -/
def authenticate (now : Int) (resp : AuthResponse) : ClientTokenState × String :=
  ({ accessToken := some resp.access_token
     tokenExpiry := now + resp.expires_in * 1000 }, resp.access_token)

/-- Library `getAccessToken` (lines 32–37):
`if (!this.accessToken || Date.now() >= this.tokenExpiry - 5 * 60 * 1000)`
re-authenticate, else return the cached token.  The third component
counts the authentication network calls performed. -/
def getAccessToken (st : ClientTokenState) (now : Int) (resp : AuthResponse) :
    ClientTokenState × String × Nat :=
  if jsTruthyStr st.accessToken = false ∨ now ≥ st.tokenExpiry - 5 * 60 * 1000 then
    let (st', tok) := authenticate now resp
    (st', tok, 1)
  else
    (st, st.accessToken.getD "", 0)

/-- Route constant `TOKEN_EXPIRY_BUFFER_MS = 5 * 60 * 1000` (line 190). -/
def TOKEN_EXPIRY_BUFFER_MS : Int := 5 * 60 * 1000

/-- Session-held token state of the route code
(`req.session.marketoAccessToken`, `req.session.marketoTokenExpiry`). -/
structure SessionTokenState where
  marketoAccessToken : Option String
  marketoTokenExpiry : Option Int
deriving Repr, DecidableEq

/-- Route `getMarketoAccessToken` (lines 192–241):
`if (sessionToken && sessionTokenExpiry && sessionTokenExpiry > (Date.now() + TOKEN_EXPIRY_BUFFER_MS))`
return the cached session token (no network call); otherwise perform the
identity exchange and store the new token and expiry.  The third
component counts the authentication network calls performed. -/
def getMarketoAccessToken (sess : SessionTokenState) (now : Int) (resp : AuthResponse) :
    SessionTokenState × String × Nat :=
  if jsTruthyStr sess.marketoAccessToken ∧ jsTruthyInt sess.marketoTokenExpiry ∧
      sess.marketoTokenExpiry.getD 0 > now + TOKEN_EXPIRY_BUFFER_MS then
    (sess, sess.marketoAccessToken.getD "", 0)
  else
    let expiresAt := now + resp.expires_in * 1000
    ({ marketoAccessToken := some resp.access_token
       marketoTokenExpiry := some expiresAt }, resp.access_token, 1)

/-! ## Paginator

Library: `MarketoClient.getAllTemplates` (lines 39–68), an uncapped
`while (true)` loop.  Route: the `bulkExportTemplates` fetch loop
(lines 986–1040), capped at `MAX_PAGES = 50`.  The provider is a
function `serve : Nat → Option (List T)` from the requested offset to
the page served; `none` models a malformed/unsuccessful response. -/

/-- Library `getAllTemplates` page-size constant `maxReturn = 200`
(line 42). -/
def maxReturn : Nat := 200

/-- Outcome of running the library `getAllTemplates` `while (true)` loop
for a bounded number of iterations. -/
inductive ListLoopResult (T : Type) where
  /-- The loop broke on a page shorter than `maxReturn` and returned the
  accumulated templates. -/
  | done (templates : List T)
  /-- A response had `success: false`: `Failed to fetch templates` was
  thrown. -/
  | threw
  /-- The loop was still running after the allotted iterations. -/
  | spinning
deriving Repr, DecidableEq

/-- Library `getAllTemplates` (lines 39–68): request the page at
`offset`, append it, break when the page is shorter than `maxReturn`,
else advance `offset` by `maxReturn` and loop — with no page cap of any
kind.  Returns the loop outcome after at most `fuel` iterations, paired
with the number of page requests issued in those iterations. -/
def getAllTemplates {T : Type} (serve : Nat → Option (List T)) (offset : Nat) :
    Nat → ListLoopResult T × Nat
  | 0 => (ListLoopResult.spinning, 0)
  | fuel + 1 =>
    match serve offset with
    | none => (ListLoopResult.threw, 1)
    | some page =>
      if page.length < maxReturn then (ListLoopResult.done page, 1)
      else
        match getAllTemplates serve (offset + maxReturn) fuel with
        | (ListLoopResult.done rest, n) => (ListLoopResult.done (page ++ rest), n + 1)
        | (r, n) => (r, n + 1)

/-- The offset-paged view of a finite upstream collection: the provider
serves the slice `coll[offset, offset + maxReturn)` for each requested
offset, every response successful. -/
def serveCollection {T : Type} (coll : List T) (offset : Nat) : Option (List T) :=
  some ((coll.drop offset).take maxReturn)

/-- A misbehaving provider that answers every offset with a full page:
`maxReturn` copies of `x`. -/
def serveAlwaysFull {T : Type} (x : T) (_offset : Nat) : Option (List T) :=
  some (List.replicate maxReturn x)

/-- Route `bulkExportTemplates` page cap `MAX_PAGES = 50` (line 988). -/
def MAX_PAGES : Nat := 50

/-- Route `bulkExportTemplates` page size `pageSize = 200` (line 991). -/
def bulkPageSize : Nat := 200

/-- How the route `bulkExportTemplates` pagination loop ended. -/
inductive BulkFetchEnd where
  /-- "Reached end of templates list!" — a page shorter than `pageSize`. -/
  | shortPage
  /-- "Reached maximum page limit (50). Some templates may be missing."
  — partial-result warning, run continues. -/
  | capped
  /-- "Unexpected response format" — error line written, loop broken. -/
  | badResponse
deriving Repr, DecidableEq

/-- Result of the route `bulkExportTemplates` fetch loop: the templates
accumulated so far, the number of page requests issued, and how the loop
ended.  In every case the loop `break`s normally and the export run
continues with the accumulated (possibly partial) list. -/
structure BulkFetchResult (T : Type) where
  templates : List T
  requests : Nat
  ending : BulkFetchEnd
deriving Repr, DecidableEq

/-- Route `bulkExportTemplates` `do … while (true)` pagination loop
(lines 993–1040): increment `pageCount`; if it now exceeds `MAX_PAGES`,
write the partial-result warning and break before issuing any request;
otherwise request the page at `offset`; on a malformed response break
with an error line; append the page; break on a page shorter than
`pageSize`, else advance `offset` and loop. -/
def bulkFetchTemplates {T : Type} (serve : Nat → Option (List T))
    (offset : Nat) (pageCount : Nat) : BulkFetchResult T :=
  if h : pageCount + 1 > MAX_PAGES then
    { templates := [], requests := 0, ending := BulkFetchEnd.capped }
  else
    match serve offset with
    | none => { templates := [], requests := 1, ending := BulkFetchEnd.badResponse }
    | some page =>
      if page.length < bulkPageSize then
        { templates := page, requests := 1, ending := BulkFetchEnd.shortPage }
      else
        let rest := bulkFetchTemplates serve (offset + bulkPageSize) (pageCount + 1)
        { templates := page ++ rest.templates, requests := rest.requests + 1,
          ending := rest.ending }
termination_by MAX_PAGES - pageCount
decreasing_by simp [MAX_PAGES] at h ⊢; omega

/-! ## Folder path resolver

Route: `getFolderDetails` (lines 244–272), `buildFolderPath`
(lines 275–289), `formatFolderPath` (lines 292–298).  The folder store
is a function `lookup : Nat → Option Folder`; `getFolderDetails` is
tolerant in the source — on a missing folder, an unexpected response
shape or a transport error it returns `null` — so `none` covers all its
failure modes. -/

/-- JavaScript truthiness of an optional natural id (`!x` is true for
`undefined`/`null` and for `0`). -/
def jsTruthyNat (x : Option Nat) : Bool :=
  match x with
  | none => false
  | some n => n ≠ 0

/-- A folder node as returned by the folder-detail endpoint: id, name
and optional `parent: {id}` reference. -/
structure Folder where
  id : Nat
  name : String
  parent : Option Nat
deriving Repr, DecidableEq

/-- Route `getFolderDetails` (lines 244–272): `if (!folderId) return
null`, then the lookup, returning `null` on not-found or any error. -/
def getFolderDetails (lookup : Nat → Option Folder) (folderId : Nat) : Option Folder :=
  if folderId = 0 then none else lookup folderId

/-- Route `buildFolderPath` (lines 275–289): `if (!folderId) return []`;
fetch the folder, `return []` if it is not found; if it has no truthy
parent id it is a root — return `[folder]`; otherwise recursively
resolve the parent path and append the folder.  The source recursion has
no cycle guard; `fuel` models the call stack, `none` meaning the
recursion has not returned within `fuel` frames. -/
def buildFolderPath (lookup : Nat → Option Folder) (folderId : Option Nat) :
    Nat → Option (List Folder)
  | 0 => none
  | fuel + 1 =>
    if jsTruthyNat folderId = false then some []
    else
      match getFolderDetails lookup (folderId.getD 0) with
      | none => some []
      | some folderDetails =>
        match folderDetails.parent with
        | none => some [folderDetails]
        | some pid =>
          if pid = 0 then some [folderDetails]
          else
            match buildFolderPath lookup (some pid) fuel with
            | none => none
            | some parentPath => some (parentPath ++ [folderDetails])

/-- Route `formatFolderPath` (lines 292–298): an empty (or missing) path
renders as the `"Unknown Location"` sentinel, otherwise the folder names
joined by `" > "`. -/
def formatFolderPath (folderPath : List Folder) : String :=
  if folderPath.length = 0 then "Unknown Location"
  else String.intercalate " > " (folderPath.map Folder.name)

/-- A fully resolvable, acyclic leaf-to-root folder chain in the store
`lookup`: every folder of the chain is found by its (truthy) id, each
links to the next by its parent reference, and the last is a root. -/
inductive Chain (lookup : Nat → Option Folder) : List Folder → Prop
  | root (f : Folder) : lookup f.id = some f → f.id ≠ 0 → f.parent = none →
      Chain lookup [f]
  | step (f p : Folder) (rest : List Folder) : lookup f.id = some f → f.id ≠ 0 →
      f.parent = some p.id → Chain lookup (p :: rest) →
      Chain lookup (f :: p :: rest)

/-- A four-folder store holding the chain A(1) → B(2) → C(3) → root(4). -/
def chainLookup : Nat → Option Folder := fun i =>
  if i = 1 then some ⟨1, "A", some 2⟩
  else if i = 2 then some ⟨2, "B", some 3⟩
  else if i = 3 then some ⟨3, "C", some 4⟩
  else if i = 4 then some ⟨4, "root", none⟩
  else none

/-- A folder store with a self-cycle: folder 1's parent reference is
folder 1 itself. -/
def cyclicLookup : Nat → Option Folder := fun i =>
  if i = 1 then some ⟨1, "Loop", some 1⟩ else none

/-! ## Content fetcher

Library: `extractHtmlContent` (lines 84–99).  Route: the
section-flattening loops of `fetchContentJsonBackup` (lines 415–428) and
`fetchEmailHtmlContent` (lines 474–487).  The three loops are identical
except for the string appended after each collected fragment. -/

/-- A typed value item of a content section: `{type, value}`. -/
structure ValueItem where
  type : String
  value : String
deriving Repr, DecidableEq

/-- A content section: `{contentType?, content?, value?: array}`.
`value = none` models an absent or non-array `section.value` (the source
guards with `section.value && Array.isArray(section.value)`); absent
strings are modelled by `""`, which the source's truthiness checks treat
identically. -/
structure ContentSection where
  value : Option (List ValueItem)
  contentType : String
  content : String
deriving Repr, DecidableEq

/-- The section-flattening loop shared by `extractHtmlContent`,
`fetchContentJsonBackup` and `fetchEmailHtmlContent`: for every section
in order, append `item.value ++ suffix` for each typed item with
`type === 'HTML'` and truthy value, then `section.content ++ suffix` if
`contentType === 'html'` with truthy content. -/
def collectHtml (suffix : String) (sections : List ContentSection) : String :=
  sections.foldl (fun acc s =>
    let acc1 :=
      match s.value with
      | some items =>
        items.foldl (fun a item =>
          if item.type = "HTML" ∧ item.value ≠ "" then a ++ item.value ++ suffix
          else a) acc
      | none => acc
    if s.contentType = "html" ∧ s.content ≠ "" then acc1 ++ s.content ++ suffix
    else acc1) ""

/-- Library `extractHtmlContent` (lines 84–99): each fragment is
followed by a single newline `'\n'`. -/
def extractHtmlContent (contentSections : List ContentSection) : String :=
  collectHtml "\n" contentSections

/-- Route `fetchContentJsonBackup` flattening (lines 415–428): each
fragment is followed by a blank line `'\n\n'`. -/
def backupCollectedHtml (contentSections : List ContentSection) : String :=
  collectHtml "\n\n" contentSections

/-- Route `fetchEmailHtmlContent` flattening (lines 474–487): each
fragment is followed by an explicit separator marker. -/
def legacyCollectedHtml (contentSections : List ContentSection) : String :=
  collectHtml "\n\n<!-- Section Separator -->\n\n" contentSections

/-- Spec-side description of the collected fragments: for each section
in input order, the values of its typed HTML items, then its inline HTML
content string if present. -/
def htmlFragments (sections : List ContentSection) : List String :=
  sections.flatMap (fun s =>
    (match s.value with
     | some items =>
       (items.filter (fun item => decide (item.type = "HTML" ∧ item.value ≠ ""))).map
         ValueItem.value
     | none => []) ++
    (if s.contentType = "html" ∧ s.content ≠ "" then [s.content] else []))

/-- Spec-side joining of fragments: each fragment followed by the
separator. -/
def joinFragments (suffix : String) : List String → String
  | [] => ""
  | f :: rest => f ++ suffix ++ joinFragments suffix rest

/-- The two-section example from the spec:
`[{value:[{type:"HTML", value:"<p>a</p>"}]}, {contentType:"html", content:"<p>b</p>"}]`. -/
def exampleSections : List ContentSection :=
  [⟨some [⟨"HTML", "<p>a</p>"⟩], "", ""⟩, ⟨none, "html", "<p>b</p>"⟩]

/-! ## Export writer and bulk orchestrators

Library: `exportTemplate` (lines 101–140) and `exportAllTemplates`
(lines 142–168).  Route: `processTemplate` (lines 1113–1213) and the
batch-processing counters of `bulkExportTemplates` (lines 1046–1089).
Filesystem writes are modelled by the list of file names written in the
template's directory and are assumed to succeed; the content fetch is
modelled by `fetchContent : Nat → Except String String` (template id to
HTML string or a thrown error message).  A template's metadata-only
fields (status, dates, folder reference, subject, sender) are passed
through to the metadata files unchanged and are elided. -/

/-- A template summary as listed by the provider. -/
structure Template where
  id : Nat
  name : String
deriving Repr, DecidableEq

/-- Library `exportTemplate` (lines 101–140): writes `metadata.json`,
then tries the content fetch; a non-empty HTML result is written to
`<id>.html`; a thrown content error is caught (line 132) and
`error.txt` is written **without re-throwing**, so the call itself
succeeds whenever the filesystem writes do.  Returns the files written
in the template directory. -/
def exportTemplate (fetchContent : Nat → Except String String) (t : Template) :
    Except String (List String) :=
  Except.ok (["metadata.json"] ++
    match fetchContent t.id with
    | Except.ok htmlContent =>
      if htmlContent ≠ "" then [toString t.id ++ ".html"] else []
    | Except.error _ => ["error.txt"])

/-- ExportResult accumulated by the library `exportAllTemplates`:
`{total, successful, failed, errors: [{templateId, error}]}`. -/
structure ExportResult where
  total : Nat
  successful : Nat
  failed : Nat
  errors : List (Nat × String)
deriving Repr, DecidableEq

/-- One iteration of the `exportAllTemplates` loop (lines 151–165):
`try { await exportTemplate(...); successful++ } catch { failed++;
errors.push({templateId, error}) }`.  The per-item outcome function
abstracts whether `exportTemplate` throws for that template. -/
def exportStep (outcome : Template → Except String Unit) (results : ExportResult)
    (t : Template) : ExportResult :=
  match outcome t with
  | Except.ok _ => { results with successful := results.successful + 1 }
  | Except.error msg =>
    { results with
      failed := results.failed + 1
      errors := results.errors ++ [(t.id, msg)] }

/-- Library `exportAllTemplates` (lines 142–168): starts from
`{total: templates.length, successful: 0, failed: 0, errors: []}` and
folds the per-item loop over the fetched templates. -/
def exportAllTemplates (templates : List Template)
    (outcome : Template → Except String Unit) : ExportResult :=
  templates.foldl (exportStep outcome)
    { total := templates.length, successful := 0, failed := 0, errors := [] }

/-- The per-item outcome of the library `exportTemplate` as seen by
`exportAllTemplates`. -/
def exportOutcome (fetchContent : Nat → Except String String)
    (t : Template) : Except String Unit :=
  (exportTemplate fetchContent t).map (fun _ => ())

/-- Route `processTemplate` (lines 1113–1213): writes `metadata.json`
and `metadata.txt`, then the content: a non-empty HTML result is written
to `<name>.html`, an empty one to `no_content.txt`, and a thrown content
error is caught, `error.txt` is written, and the error is **re-thrown**
("to properly count errors").  Returns the files written and the call's
outcome.  (The regex sanitization of the file name and the folder-path
metadata string are elided — no claim depends on them.) -/
def processTemplate (fetchContent : Nat → Except String String) (t : Template) :
    List String × Except String Unit :=
  let base := ["metadata.json", "metadata.txt"]
  match fetchContent t.id with
  | Except.ok htmlContent =>
    if htmlContent ≠ "" then (base ++ [t.name ++ ".html"], Except.ok ())
    else (base ++ ["no_content.txt"], Except.ok ())
  | Except.error msg => (base ++ ["error.txt"], Except.error msg)

/-- Route `bulkExportTemplates` batch size `BATCH_SIZE = 5`
(line 1047). -/
def BATCH_SIZE : Nat := 5

/-- The per-run counters of the route `bulkExportTemplates` processing
stage: `processedCount`, `successCount`, `errorCount`
(lines 1048–1050). -/
structure BulkCounts where
  processedCount : Nat
  successCount : Nat
  errorCount : Nat
deriving Repr, DecidableEq

/-- One item of a `bulkExportTemplates` batch (lines 1060–1076): the
item's handler catches its own exception, incrementing `processedCount`
and exactly one of `successCount` / `errorCount`. -/
def bulkStep (outcome : Template → Except String Unit) (c : BulkCounts)
    (t : Template) : BulkCounts :=
  match outcome t with
  | Except.ok _ =>
    { processedCount := c.processedCount + 1
      successCount := c.successCount + 1
      errorCount := c.errorCount }
  | Except.error _ =>
    { processedCount := c.processedCount + 1
      successCount := c.successCount
      errorCount := c.errorCount + 1 }

/-- The batch slicing of the route loop
`for (let i = 0; i < allTemplates.length; i += BATCH_SIZE)`:
successive slices of `BATCH_SIZE` templates. -/
def toBatches : List Template → List (List Template)
  | [] => []
  | t :: rest =>
    (t :: rest).take BATCH_SIZE :: toBatches ((t :: rest).drop BATCH_SIZE)
termination_by ts => ts.length
decreasing_by simp [BATCH_SIZE]; omega

/-- Route `bulkExportTemplates` processing stage (lines 1052–1089):
fold the per-item counting over each batch in submission order.  Within
a batch the items settle concurrently (`Promise.allSettled`), but each
handler increments exactly one success/error counter, so the final
counter values equal this sequential fold. -/
def bulkProcessTemplates (outcome : Template → Except String Unit)
    (templates : List Template) : BulkCounts :=
  (toBatches templates).foldl (fun c batch => batch.foldl (bulkStep outcome) c)
    ⟨0, 0, 0⟩

/-- The error records accumulated over a template list: one
`(templateId, message)` entry per item whose outcome is a thrown
error, in input order. -/
def exportErrors (outcome : Template → Except String Unit)
    (ts : List Template) : List (Nat × String) :=
  ts.filterMap (fun t =>
    match outcome t with
    | Except.error msg => some (t.id, msg)
    | Except.ok _ => none)

/-- The number of items of a template list whose outcome succeeds. -/
def exportSuccesses (outcome : Template → Except String Unit)
    (ts : List Template) : Nat :=
  (ts.filter (fun t => (outcome t).isOk)).length

/-- Whether `sub` occurs at the start of `l` (character lists). -/
def matchesAt (sub : List Char) (l : List Char) : Bool :=
  match sub, l with
  | [], _ => true
  | _ :: _, [] => false
  | a :: as, b :: bs => decide (a = b) && matchesAt as bs

/-- Whether `sub` occurs contiguously anywhere in `l` (character
lists); used to state the absence of a blank line or separator marker
in a flattened HTML string. -/
def containsSeq (sub : List Char) : List Char → Bool
  | [] => decide (sub = [])
  | c :: rest => matchesAt sub (c :: rest) || containsSeq sub rest

end Marketo

open Marketo

/-- **C2.** For every stored token with expiry instant `expiresAt` (a real
stored token has a non-empty bearer string and a non-zero expiry), both
token guards — the library `getAccessToken` and the route
`getMarketoAccessToken` — return the cached bearer with zero
authentication calls at time `expiresAt − 5min − 1s`, and perform exactly
one authentication call at time `expiresAt − 5min + 1s`. -/
theorem C2_token_refresh_window (bearer : String) (expiresAt : Int) (resp : AuthResponse)
    (hb : bearer ≠ "") (he : expiresAt ≠ 0) :
    (getAccessToken ⟨some bearer, expiresAt⟩ (expiresAt - 5 * 60 * 1000 - 1000) resp).2
        = (bearer, 0) ∧
    (getAccessToken ⟨some bearer, expiresAt⟩ (expiresAt - 5 * 60 * 1000 + 1000) resp).2.2 = 1 ∧
    (getMarketoAccessToken ⟨some bearer, some expiresAt⟩
        (expiresAt - 5 * 60 * 1000 - 1000) resp).2 = (bearer, 0) ∧
    (getMarketoAccessToken ⟨some bearer, some expiresAt⟩
        (expiresAt - 5 * 60 * 1000 + 1000) resp).2.2 = 1 := by
  refine ⟨?_, ?_, ?_, ?_⟩
  · have hc : ¬ (jsTruthyStr (ClientTokenState.accessToken ⟨some bearer, expiresAt⟩) = false ∨
        expiresAt - 5 * 60 * 1000 - 1000 ≥
          ClientTokenState.tokenExpiry ⟨some bearer, expiresAt⟩ - 5 * 60 * 1000) := by
      rintro (h | h)
      · simp [jsTruthyStr, hb] at h
      · simp at h
    rw [getAccessToken, if_neg hc]
    simp
  · rw [getAccessToken, if_pos (Or.inr (by simp))]
  · have hc : jsTruthyStr (SessionTokenState.marketoAccessToken ⟨some bearer, some expiresAt⟩)
        ∧ jsTruthyInt (SessionTokenState.marketoTokenExpiry ⟨some bearer, some expiresAt⟩)
        ∧ (SessionTokenState.marketoTokenExpiry ⟨some bearer, some expiresAt⟩).getD 0 >
            (expiresAt - 5 * 60 * 1000 - 1000) + TOKEN_EXPIRY_BUFFER_MS := by
      refine ⟨by simp [jsTruthyStr, hb], by simp [jsTruthyInt, he], ?_⟩
      simp [TOKEN_EXPIRY_BUFFER_MS]
      omega
    rw [getMarketoAccessToken, if_pos hc]
    simp
  · have hc : ¬ (jsTruthyStr (SessionTokenState.marketoAccessToken ⟨some bearer, some expiresAt⟩)
        ∧ jsTruthyInt (SessionTokenState.marketoTokenExpiry ⟨some bearer, some expiresAt⟩)
        ∧ (SessionTokenState.marketoTokenExpiry ⟨some bearer, some expiresAt⟩).getD 0 >
            (expiresAt - 5 * 60 * 1000 + 1000) + TOKEN_EXPIRY_BUFFER_MS) := by
      rintro ⟨_, _, h3⟩
      simp [TOKEN_EXPIRY_BUFFER_MS] at h3
      omega
    rw [getMarketoAccessToken, if_neg hc]

/-- Witness for C2 at a concrete stored token. -/
theorem C2_token_refresh_window_witness :
    ("tok" ≠ "" ∧ (3600000 : Int) ≠ 0) ∧
    (getAccessToken ⟨some "tok", 3600000⟩ (3600000 - 5 * 60 * 1000 - 1000) ⟨"new", 3600⟩).2
        = ("tok", 0) ∧
    (getAccessToken ⟨some "tok", 3600000⟩ (3600000 - 5 * 60 * 1000 + 1000) ⟨"new", 3600⟩).2.2
        = 1 ∧
    (getMarketoAccessToken ⟨some "tok", some 3600000⟩
        (3600000 - 5 * 60 * 1000 - 1000) ⟨"new", 3600⟩).2 = ("tok", 0) ∧
    (getMarketoAccessToken ⟨some "tok", some 3600000⟩
        (3600000 - 5 * 60 * 1000 + 1000) ⟨"new", 3600⟩).2.2 = 1 :=
  ⟨⟨by decide, by decide⟩,
   C2_token_refresh_window "tok" 3600000 ⟨"new", 3600⟩ (by decide) (by decide)⟩

/-- One-step unfolding of the library `getAllTemplates` loop. -/
theorem getAllTemplates_succ {T : Type} (serve : Nat → Option (List T))
    (offset fuel : Nat) :
    getAllTemplates serve offset (fuel + 1) =
      match serve offset with
      | none => (ListLoopResult.threw, 1)
      | some page =>
        if page.length < maxReturn then (ListLoopResult.done page, 1)
        else
          match getAllTemplates serve (offset + maxReturn) fuel with
          | (ListLoopResult.done rest, n) => (ListLoopResult.done (page ++ rest), n + 1)
          | (r, n) => (r, n + 1) := rfl

/-- The library `getAllTemplates` loop against a provider that always
serves a full page: after any number of iterations the loop is still
spinning and has issued one page request per iteration. -/
theorem getAllTemplates_always_full {T : Type} (x : T) :
    ∀ (fuel offset : Nat),
      getAllTemplates (serveAlwaysFull x) offset fuel = (ListLoopResult.spinning, fuel) := by
  intro fuel
  induction fuel with
  | zero => intro offset; rfl
  | succ n ih =>
    intro offset
    rw [getAllTemplates_succ]
    simp only [serveAlwaysFull]
    have hfull : ¬ (List.replicate maxReturn x).length < maxReturn := by simp
    rw [if_neg hfull]
    rw [ih (offset + maxReturn)]

/-- The route `bulkExportTemplates` loop issues at most
`MAX_PAGES - pageCount` further page requests from counter state
`pageCount`, whatever the provider serves. -/
theorem bulkFetch_requests_bound {T : Type} (serve : Nat → Option (List T)) :
    ∀ (n offset pageCount : Nat), MAX_PAGES - pageCount ≤ n →
      (bulkFetchTemplates serve offset pageCount).requests ≤ n := by
  intro n
  induction n with
  | zero =>
    intro offset pageCount h
    have hc : pageCount + 1 > MAX_PAGES := by omega
    rw [bulkFetchTemplates, dif_pos hc]
  | succ n ih =>
    intro offset pageCount h
    rw [bulkFetchTemplates]
    by_cases hc : pageCount + 1 > MAX_PAGES
    · rw [dif_pos hc]
      simp
    · rw [dif_neg hc]
      cases hs : serve offset with
      | none => simp
      | some page =>
        dsimp only
        by_cases hl : page.length < bulkPageSize
        · rw [if_pos hl]
          simp
        · rw [if_neg hl]
          have hrec := ih (offset + bulkPageSize) (pageCount + 1) (by omega)
          dsimp only
          omega

/-- Against the always-full provider, the route loop stops exactly at the
cap: from counter state `pageCount` it fetches the remaining
`MAX_PAGES - pageCount` full pages and ends with the partial-result
warning. -/
theorem bulkFetch_always_full {T : Type} (x : T) :
    ∀ (n offset pageCount : Nat), MAX_PAGES - pageCount = n →
      bulkFetchTemplates (serveAlwaysFull x) offset pageCount =
        { templates := List.replicate (n * bulkPageSize) x,
          requests := n, ending := BulkFetchEnd.capped } := by
  intro n
  induction n with
  | zero =>
    intro offset pageCount h
    have hc : pageCount + 1 > MAX_PAGES := by omega
    rw [bulkFetchTemplates, dif_pos hc]
    simp
  | succ n ih =>
    intro offset pageCount h
    have hc : ¬ pageCount + 1 > MAX_PAGES := by omega
    rw [bulkFetchTemplates, dif_neg hc]
    simp only [serveAlwaysFull]
    have hfull : ¬ (List.replicate maxReturn x).length < bulkPageSize := by
      simp only [List.length_replicate, maxReturn, bulkPageSize]
      omega
    rw [if_neg hfull]
    rw [ih (offset + bulkPageSize) (pageCount + 1) (by omega)]
    simp only [maxReturn, bulkPageSize]
    have h2 : (n + 1) * 200 = 200 + n * 200 := by ring
    rw [h2, List.replicate_add]

/-- **C1 (counterexample).** The library `getAllTemplates` has no page
cap: against a provider that always serves full pages, after
`MAX_PAGES + 1` loop iterations it has issued `MAX_PAGES + 1 > MAX_PAGES`
page requests and is still running, so the full-collection listing does
not issue at most `MAX_PAGES` page requests. -/
theorem C1_counterexample :
    getAllTemplates (serveAlwaysFull (0 : Nat)) 0 (MAX_PAGES + 1)
        = (ListLoopResult.spinning, MAX_PAGES + 1) ∧
    MAX_PAGES + 1 > MAX_PAGES :=
  ⟨getAllTemplates_always_full 0 (MAX_PAGES + 1) 0, by omega⟩

/-- **C1 (amended).** The route pagination loop of `bulkExportTemplates`
issues at most `MAX_PAGES = 50` page requests for every provider; when
the cap is reached it ends pagination early and the run continues with
the accumulated partial results and a partial-result warning
(`BulkFetchEnd.capped`) rather than failing.  The library
`getAllTemplates`, by contrast, has no cap: against an always-full
provider it issues one request per iteration forever. -/
theorem C1_route_cap_partial_warning :
    (∀ (T : Type) (serve : Nat → Option (List T)),
        (bulkFetchTemplates serve 0 0).requests ≤ MAX_PAGES) ∧
    (bulkFetchTemplates (serveAlwaysFull (0 : Nat)) 0 0
        = { templates := List.replicate (MAX_PAGES * bulkPageSize) 0,
            requests := MAX_PAGES, ending := BulkFetchEnd.capped }) ∧
    (∀ fuel : Nat,
        getAllTemplates (serveAlwaysFull (0 : Nat)) 0 fuel
          = (ListLoopResult.spinning, fuel)) :=
  ⟨fun _ serve => bulkFetch_requests_bound serve MAX_PAGES 0 0 (by omega),
   bulkFetch_always_full 0 MAX_PAGES 0 0 rfl,
   fun fuel => getAllTemplates_always_full 0 fuel 0⟩

/-- The library `getAllTemplates` loop over the offset-paged view of a
finite collection returns the whole remainder of the collection from any
starting offset, given enough iterations. -/
theorem getAllTemplates_collection {T : Type} (coll : List T) :
    ∀ (fuel offset : Nat), coll.length ≤ offset + fuel * maxReturn →
      (getAllTemplates (serveCollection coll) offset (fuel + 1)).1
        = ListLoopResult.done (coll.drop offset) := by
  intro fuel
  induction fuel with
  | zero =>
    intro offset h
    simp only [Nat.zero_mul, Nat.add_zero] at h
    rw [getAllTemplates_succ]
    simp only [serveCollection]
    rw [List.drop_of_length_le h]
    rw [if_pos (by simp [maxReturn])]
    simp
  | succ n ih =>
    intro offset h
    rw [getAllTemplates_succ]
    simp only [serveCollection]
    by_cases hl : ((coll.drop offset).take maxReturn).length < maxReturn
    · rw [if_pos hl]
      have hle : (coll.drop offset).length ≤ maxReturn := by
        rw [List.length_take] at hl
        omega
      rw [List.take_of_length_le hle]
    · rw [if_neg hl]
      have hrec := ih (offset + maxReturn) (by simp only [maxReturn] at h ⊢; omega)
      rcases hg : getAllTemplates (serveCollection coll) (offset + maxReturn) (n + 1)
        with ⟨r, m⟩
      rw [hg] at hrec
      simp only at hrec
      subst hrec
      dsimp only
      rw [← List.drop_drop, List.take_append_drop]

/-- **C5.** For any finite upstream collection whose size is at most
`MAX_PAGES × pageSize`, the library full-collection listing
`getAllTemplates` terminates (within `|coll| + 1` loop iterations) and
returns exactly the full collection in stable order — the concatenation
of the provider's offset pages in the order served — ending when a page
shorter than the page size is returned. -/
theorem C5_listAll_full_collection (T : Type) (coll : List T)
    (hsize : coll.length ≤ MAX_PAGES * maxReturn) :
    (getAllTemplates (serveCollection coll) 0 (coll.length + 1)).1
      = ListLoopResult.done coll := by
  have h := getAllTemplates_collection coll coll.length 0
    (by simp only [maxReturn]; omega)
  simpa using h

/-- Witness for C5 at a concrete 3-element collection. -/
theorem C5_listAll_full_collection_witness :
    ([1, 2, 3] : List Nat).length ≤ MAX_PAGES * maxReturn ∧
    (getAllTemplates (serveCollection ([1, 2, 3] : List Nat)) 0
        (([1, 2, 3] : List Nat).length + 1)).1
      = ListLoopResult.done [1, 2, 3] :=
  ⟨by decide, C5_listAll_full_collection Nat [1, 2, 3] (by decide)⟩

/-- One-step unfolding of the `buildFolderPath` recursion. -/
theorem buildFolderPath_succ (lookup : Nat → Option Folder) (folderId : Option Nat)
    (fuel : Nat) :
    buildFolderPath lookup folderId (fuel + 1) =
      if jsTruthyNat folderId = false then some []
      else
        match getFolderDetails lookup (folderId.getD 0) with
        | none => some []
        | some folderDetails =>
          match folderDetails.parent with
          | none => some [folderDetails]
          | some pid =>
            if pid = 0 then some [folderDetails]
            else
              match buildFolderPath lookup (some pid) fuel with
              | none => none
              | some parentPath => some (parentPath ++ [folderDetails]) := rfl

/-- **C4 (counterexample).** A folder chain in which the requested
folder A is found but the lookup of its parent (folder 2) returns
not-found: `buildFolderPath` returns the non-empty truncated path `[A]`,
not the empty path, and the caller renders `"A"` rather than the
`"Unknown Location"` sentinel. -/
theorem C4_counterexample :
    buildFolderPath
        (fun i => if i = 1 then some ⟨1, "A", some 2⟩ else none) (some 1) 10
      = some [⟨1, "A", some 2⟩] ∧
    some [(⟨1, "A", some 2⟩ : Folder)] ≠ some ([] : List Folder) ∧
    formatFolderPath [⟨1, "A", some 2⟩] = "A" := by
  refine ⟨rfl, by decide, ?_⟩
  rfl

/-- **C4 (amended).** `buildFolderPath` never raises (the folder lookup
is tolerant), and returns the empty path — which `formatFolderPath`
renders as `"Unknown Location"` — exactly when the lookup of the
*requested* folder itself returns not-found; when the lookup of a strict
ancestor fails instead, the chain is silently truncated and a non-empty
partial path is returned. -/
theorem C4_empty_path_only_for_first_lookup (lookup : Nat → Option Folder)
    (fid : Nat) (fuel : Nat) (hfuel : 1 ≤ fuel) (hmiss : lookup fid = none) :
    buildFolderPath lookup (some fid) fuel = some [] ∧
    formatFolderPath [] = "Unknown Location" ∧
    (∀ (f : Folder) (pid : Nat) (fuel2 : Nat), 2 ≤ fuel2 →
      lookup f.id = some f → f.id ≠ 0 → f.parent = some pid → pid ≠ 0 →
      lookup pid = none →
      buildFolderPath lookup (some f.id) fuel2 = some [f]) := by
  refine ⟨?_, rfl, ?_⟩
  · obtain ⟨k, rfl⟩ : ∃ k, fuel = k + 1 := ⟨fuel - 1, by omega⟩
    rw [buildFolderPath_succ]
    by_cases h0 : fid = 0
    · rw [if_pos (by simp [jsTruthyNat, h0])]
    · rw [if_neg (by simp [jsTruthyNat, h0])]
      simp only [Option.getD]
      rw [getFolderDetails, if_neg h0, hmiss]
  · intro f pid fuel2 hf2 hfound hid hparent hpid hpmiss
    obtain ⟨k, rfl⟩ : ∃ k, fuel2 = k + 1 + 1 := ⟨fuel2 - 2, by omega⟩
    rw [buildFolderPath_succ]
    rw [if_neg (by simp [jsTruthyNat, hid])]
    simp only [Option.getD]
    rw [getFolderDetails, if_neg hid, hfound]
    simp only [hparent]
    rw [if_neg hpid]
    rw [buildFolderPath_succ]
    rw [if_neg (by simp [jsTruthyNat, hpid])]
    simp only [Option.getD]
    rw [getFolderDetails, if_neg hpid, hpmiss]
    simp

/-- Witness for C4 at a concrete store with every lookup missing. -/
theorem C4_empty_path_only_for_first_lookup_witness :
    (1 ≤ 1 ∧ (fun (_ : Nat) => (none : Option Folder)) 5 = none) ∧
    buildFolderPath (fun _ => none) (some 5) 1 = some [] ∧
    formatFolderPath [] = "Unknown Location" :=
  ⟨⟨by decide, rfl⟩,
   (C4_empty_path_only_for_first_lookup (fun _ => none) 5 1 (by decide) rfl).1,
   (C4_empty_path_only_for_first_lookup (fun _ => none) 5 1 (by decide) rfl).2.1⟩

/-- Resolution of a fully resolvable chain, stated over a general chain
list: `buildFolderPath` on the head folder's id returns the reversed
chain, given stack depth at least the chain length. -/
theorem chain_resolve (lookup : Nat → Option Folder) (fs : List Folder)
    (hchain : Chain lookup fs) :
    ∀ fuel, fs.length ≤ fuel →
      buildFolderPath lookup (some ((fs.headD ⟨0, "", none⟩).id)) fuel
        = some fs.reverse := by
  induction hchain with
  | root g hg hid hroot =>
    intro fuel hfuel
    obtain ⟨k, rfl⟩ : ∃ k, fuel = k + 1 := ⟨fuel - 1, by simp at hfuel; omega⟩
    rw [buildFolderPath_succ]
    simp only [List.headD]
    rw [if_neg (by simp [jsTruthyNat, hid])]
    simp only [Option.getD]
    rw [getFolderDetails, if_neg hid, hg]
    simp [hroot]
  | step g p rest' hg hid hparent hrest ih =>
    intro fuel hfuel
    obtain ⟨k, rfl⟩ : ∃ k, fuel = k + 1 := ⟨fuel - 1, by simp at hfuel; omega⟩
    rw [buildFolderPath_succ]
    simp only [List.headD]
    rw [if_neg (by simp [jsTruthyNat, hid])]
    simp only [Option.getD]
    rw [getFolderDetails, if_neg hid, hg]
    simp only [hparent]
    have hpid : p.id ≠ 0 := by
      cases hrest with
      | root _ _ h _ => exact h
      | step _ _ _ _ h _ _ => exact h
    rw [if_neg hpid]
    have hk := ih k (by simp at hfuel ⊢; omega)
    simp only [List.headD] at hk
    rw [hk]
    simp

/-- **C8.** For every acyclic, fully resolvable leaf-to-root folder
chain `f :: rest`, `buildFolderPath` on the leaf's id returns the
ordered list of folder nodes from root to the leaf — the reverse of the
chain — given stack depth at least the chain length; and it returns the
empty list when `folderId` is absent. -/
theorem C8_path_root_to_leaf (lookup : Nat → Option Folder) (f : Folder)
    (rest : List Folder) (fuel : Nat) (hchain : Chain lookup (f :: rest))
    (hfuel : (f :: rest).length ≤ fuel) :
    buildFolderPath lookup (some f.id) fuel = some (f :: rest).reverse ∧
    (∀ fuel2, 1 ≤ fuel2 → buildFolderPath lookup none fuel2 = some []) := by
  constructor
  · have h := chain_resolve lookup (f :: rest) hchain fuel hfuel
    simpa using h
  · intro fuel2 h2
    obtain ⟨k, rfl⟩ : ∃ k, fuel2 = k + 1 := ⟨fuel2 - 1, by omega⟩
    rw [buildFolderPath_succ]
    rw [if_pos (by simp [jsTruthyNat])]

/-- Witness for C8 at the concrete chain A(1) → B(2) → C(3) → root(4):
the resolved path is `[root, C, B, A]`. -/
theorem C8_path_root_to_leaf_witness :
    Chain chainLookup
      [⟨1, "A", some 2⟩, ⟨2, "B", some 3⟩, ⟨3, "C", some 4⟩, ⟨4, "root", none⟩] ∧
    ([(⟨1, "A", some 2⟩ : Folder), ⟨2, "B", some 3⟩, ⟨3, "C", some 4⟩,
        ⟨4, "root", none⟩] : List Folder).length ≤ 4 ∧
    buildFolderPath chainLookup (some 1) 4
      = some [⟨4, "root", none⟩, ⟨3, "C", some 4⟩, ⟨2, "B", some 3⟩, ⟨1, "A", some 2⟩] := by
  have hchain : Chain chainLookup
      [⟨1, "A", some 2⟩, ⟨2, "B", some 3⟩, ⟨3, "C", some 4⟩, ⟨4, "root", none⟩] :=
    Chain.step _ _ _ rfl (by decide) rfl
      (Chain.step _ _ _ rfl (by decide) rfl
        (Chain.step _ _ _ rfl (by decide) rfl
          (Chain.root _ rfl (by decide) rfl)))
  exact ⟨hchain, by decide,
    (C8_path_root_to_leaf chainLookup ⟨1, "A", some 2⟩
      [⟨2, "B", some 3⟩, ⟨3, "C", some 4⟩, ⟨4, "root", none⟩] 4 hchain (by decide)).1⟩

/-- **C9.** On a cyclic folder chain the source `buildFolderPath` has no
cycle guard and recurses forever: for the store in which folder 1 is its
own parent, resolution of folder 1 fails to return within any stack
depth (the claim — and the spec's defensive requirement — says
resolution must terminate; the code does not satisfy it). -/
theorem C9_cycle_never_terminates :
    ∀ fuel : Nat, buildFolderPath cyclicLookup (some 1) fuel = none := by
  intro fuel
  induction fuel with
  | zero => rfl
  | succ k ih =>
    rw [buildFolderPath_succ]
    rw [if_neg (by simp [jsTruthyNat])]
    simp only [Option.getD]
    rw [show getFolderDetails cyclicLookup 1 = some ⟨1, "Loop", some 1⟩ from rfl]
    simp only
    rw [if_neg (by decide)]
    rw [ih]

/-- Joining fragments distributes over list concatenation. -/
theorem joinFragments_append (suffix : String) :
    ∀ xs ys : List String,
      joinFragments suffix (xs ++ ys)
        = joinFragments suffix xs ++ joinFragments suffix ys := by
  intro xs ys
  induction xs with
  | nil => simp [joinFragments]
  | cons f rest ih => simp [joinFragments, ih, String.append_assoc]

/-- The inner item loop of the flattening appends exactly the values of
the typed HTML items, each followed by the separator. -/
theorem collect_items_foldl (suffix : String) :
    ∀ (items : List ValueItem) (a : String),
      items.foldl (fun a item =>
          if item.type = "HTML" ∧ item.value ≠ "" then a ++ item.value ++ suffix
          else a) a
        = a ++ joinFragments suffix
            ((items.filter
                (fun item => decide (item.type = "HTML" ∧ item.value ≠ ""))).map
              ValueItem.value) := by
  intro items
  induction items with
  | nil => intro a; simp [joinFragments]
  | cons i rest ih =>
    intro a
    simp only [List.foldl_cons, List.filter_cons]
    by_cases hp : i.type = "HTML" ∧ i.value ≠ ""
    · rw [if_pos hp, ih]
      simp [hp, joinFragments, String.append_assoc]
    · rw [if_neg hp, ih]
      simp [hp]

/-- The section loop of the flattening appends exactly the fragments of
the sections in input order, each followed by the separator. -/
theorem collect_sections_foldl (suffix : String) :
    ∀ (sections : List ContentSection) (acc : String),
      sections.foldl (fun acc s =>
        let acc1 :=
          match s.value with
          | some items =>
            items.foldl (fun a item =>
              if item.type = "HTML" ∧ item.value ≠ "" then a ++ item.value ++ suffix
              else a) acc
          | none => acc
        if s.contentType = "html" ∧ s.content ≠ "" then acc1 ++ s.content ++ suffix
        else acc1) acc
      = acc ++ joinFragments suffix (htmlFragments sections) := by
  intro sections
  induction sections with
  | nil => intro acc; simp [htmlFragments, joinFragments]
  | cons s rest ih =>
    intro acc
    simp only [List.foldl_cons]
    rw [ih]
    simp only [htmlFragments, List.flatMap_cons]
    rw [joinFragments_append, joinFragments_append]
    cases hv : s.value with
    | none =>
      simp only
      by_cases hc : s.contentType = "html" ∧ s.content ≠ ""
      · rw [if_pos hc, if_pos hc]
        simp [joinFragments, String.append_assoc]
      · rw [if_neg hc, if_neg hc]
        simp [joinFragments]
    | some items =>
      simp only
      rw [collect_items_foldl]
      by_cases hc : s.contentType = "html" ∧ s.content ≠ ""
      · rw [if_pos hc, if_pos hc]
        simp [joinFragments, String.append_assoc]
      · rw [if_neg hc, if_neg hc]
        simp [joinFragments, String.append_assoc]

/-- The three source flattenings all equal the spec-side fragments
joined with their separator. -/
theorem collectHtml_eq_joinFragments (suffix : String)
    (sections : List ContentSection) :
    collectHtml suffix sections = joinFragments suffix (htmlFragments sections) := by
  rw [collectHtml, collect_sections_foldl]
  simp

/-- **C6 (counterexample).** On the spec's own two-section example, the
library `extractHtmlContent` yields `"<p>a</p>\n<p>b</p>\n"`: the two
fragments are separated by a single newline — the output contains no
blank line (`"\n\n"`) and no separator marker (`"<!--"`) anywhere — so
the flattening step does not join fragments with a blank line or an
explicit separator marker. -/
theorem C6_counterexample :
    extractHtmlContent exampleSections = "<p>a</p>\n<p>b</p>\n" ∧
    containsSeq "\n\n".data (extractHtmlContent exampleSections).data = false ∧
    containsSeq "<!--".data (extractHtmlContent exampleSections).data = false := by
  refine ⟨rfl, ?_, ?_⟩ <;> decide

/-- **C6 (amended).** For every list of content sections, each of the
three flattening loops collects, per section in input order, the value
of every typed value item whose type is HTML and then the section's
inline HTML content string if present, appending its separator after
each fragment: a blank line in the route backup flatten, an explicit
separator marker in the route legacy flatten, but only a single newline
in the library `extractHtmlContent`.  On the spec's two-section example
each yields both fragments in input order, so separated. -/
theorem C6_fragments_in_order :
    (∀ (suffix : String) (sections : List ContentSection),
        collectHtml suffix sections = joinFragments suffix (htmlFragments sections)) ∧
    extractHtmlContent exampleSections = "<p>a</p>" ++ "\n" ++ "<p>b</p>" ++ "\n" ∧
    backupCollectedHtml exampleSections
      = "<p>a</p>" ++ "\n\n" ++ "<p>b</p>" ++ "\n\n" ∧
    legacyCollectedHtml exampleSections
      = "<p>a</p>" ++ "\n\n<!-- Section Separator -->\n\n"
          ++ "<p>b</p>" ++ "\n\n<!-- Section Separator -->\n\n" :=
  ⟨collectHtml_eq_joinFragments, rfl, rfl, rfl⟩

/-- Characterization of the `exportAllTemplates` loop from any
accumulator: the counters gain the number of succeeding / failing items
and the error records of the failing items, in input order. -/
theorem exportAll_foldl (outcome : Template → Except String Unit) :
    ∀ (ts : List Template) (acc : ExportResult),
      ts.foldl (exportStep outcome) acc =
        { total := acc.total
          successful := acc.successful + exportSuccesses outcome ts
          failed := acc.failed + (exportErrors outcome ts).length
          errors := acc.errors ++ exportErrors outcome ts } := by
  intro ts
  induction ts with
  | nil => intro acc; simp [exportSuccesses, exportErrors]
  | cons t rest ih =>
    intro acc
    simp only [List.foldl_cons]
    cases ho : outcome t with
    | ok u =>
      rw [show exportStep outcome acc t = { acc with successful := acc.successful + 1 }
        from by simp [exportStep, ho]]
      rw [ih]
      have hS : exportSuccesses outcome (t :: rest) = exportSuccesses outcome rest + 1 := by
        simp [exportSuccesses, List.filter_cons, ho, Except.isOk, Except.toBool]
      have hE : exportErrors outcome (t :: rest) = exportErrors outcome rest := by
        simp [exportErrors, List.filterMap_cons, ho]
      rw [hS, hE]
      dsimp only
      congr 1
      omega
    | error msg =>
      rw [show exportStep outcome acc t
          = { acc with failed := acc.failed + 1, errors := acc.errors ++ [(t.id, msg)] }
        from by simp [exportStep, ho]]
      rw [ih]
      have hS : exportSuccesses outcome (t :: rest) = exportSuccesses outcome rest := by
        simp [exportSuccesses, List.filter_cons, ho, Except.isOk, Except.toBool]
      have hE : exportErrors outcome (t :: rest)
          = (t.id, msg) :: exportErrors outcome rest := by
        simp [exportErrors, List.filterMap_cons, ho]
      rw [hS, hE]
      dsimp only
      congr 1
      · simp only [List.length_cons]
        omega
      · simp

/-- Every item settles as exactly one of success or failure, so the two
counts partition the list. -/
theorem successes_add_errors (outcome : Template → Except String Unit) :
    ∀ ts : List Template,
      exportSuccesses outcome ts + (exportErrors outcome ts).length = ts.length := by
  intro ts
  induction ts with
  | nil => simp [exportSuccesses, exportErrors]
  | cons t rest ih =>
    cases ho : outcome t with
    | ok u =>
      have hS : exportSuccesses outcome (t :: rest) = exportSuccesses outcome rest + 1 := by
        simp [exportSuccesses, List.filter_cons, ho, Except.isOk, Except.toBool]
      have hE : exportErrors outcome (t :: rest) = exportErrors outcome rest := by
        simp [exportErrors, List.filterMap_cons, ho]
      rw [hS, hE]
      simp only [List.length_cons]
      omega
    | error msg =>
      have hS : exportSuccesses outcome (t :: rest) = exportSuccesses outcome rest := by
        simp [exportSuccesses, List.filter_cons, ho, Except.isOk, Except.toBool]
      have hE : exportErrors outcome (t :: rest)
          = (t.id, msg) :: exportErrors outcome rest := by
        simp [exportErrors, List.filterMap_cons, ho]
      rw [hS, hE]
      simp only [List.length_cons]
      omega

/-- **C10.** For every template list and every pattern of per-item
outcomes, the ExportResult returned by `exportAllTemplates` satisfies
`total = successful + failed`, and `errors` has exactly one
`{templateId, error}` entry per failed item (`errors.length = failed`):
each processed item increments exactly one of the two counters. -/
theorem C10_result_invariants (templates : List Template)
    (outcome : Template → Except String Unit) :
    (exportAllTemplates templates outcome).total
        = (exportAllTemplates templates outcome).successful
          + (exportAllTemplates templates outcome).failed ∧
    (exportAllTemplates templates outcome).errors.length
        = (exportAllTemplates templates outcome).failed := by
  rw [exportAllTemplates, exportAll_foldl]
  simp
  have := successes_add_errors outcome templates
  omega

/-- Characterization of a sequential fold of the per-item batch handler:
each item increments `processedCount` and exactly one of the success /
error counters. -/
theorem bulkFold_spec (outcome : Template → Except String Unit) :
    ∀ (ts : List Template) (c : BulkCounts),
      ts.foldl (bulkStep outcome) c =
        { processedCount := c.processedCount + ts.length
          successCount := c.successCount + exportSuccesses outcome ts
          errorCount := c.errorCount + (exportErrors outcome ts).length } := by
  intro ts
  induction ts with
  | nil => intro c; simp [exportSuccesses, exportErrors]
  | cons t rest ih =>
    intro c
    simp only [List.foldl_cons]
    cases ho : outcome t with
    | ok u =>
      rw [show bulkStep outcome c t
          = { processedCount := c.processedCount + 1
              successCount := c.successCount + 1
              errorCount := c.errorCount }
        from by simp [bulkStep, ho]]
      rw [ih]
      have hS : exportSuccesses outcome (t :: rest) = exportSuccesses outcome rest + 1 := by
        simp [exportSuccesses, List.filter_cons, ho, Except.isOk, Except.toBool]
      have hE : exportErrors outcome (t :: rest) = exportErrors outcome rest := by
        simp [exportErrors, List.filterMap_cons, ho]
      rw [hS, hE]
      dsimp only
      simp only [List.length_cons]
      congr 1 <;> omega
    | error msg =>
      rw [show bulkStep outcome c t
          = { processedCount := c.processedCount + 1
              successCount := c.successCount
              errorCount := c.errorCount + 1 }
        from by simp [bulkStep, ho]]
      rw [ih]
      have hS : exportSuccesses outcome (t :: rest) = exportSuccesses outcome rest := by
        simp [exportSuccesses, List.filter_cons, ho, Except.isOk, Except.toBool]
      have hE : exportErrors outcome (t :: rest)
          = (t.id, msg) :: exportErrors outcome rest := by
        simp [exportErrors, List.filterMap_cons, ho]
      rw [hS, hE]
      dsimp only
      simp only [List.length_cons]
      congr 1 <;> omega

/-- Folding the batch handler over the batch slices equals folding the
per-item handler over the whole list: batching only groups the items. -/
theorem toBatches_foldl (outcome : Template → Except String Unit) :
    ∀ (n : Nat) (ts : List Template), ts.length ≤ n → ∀ (c : BulkCounts),
      (toBatches ts).foldl (fun c batch => batch.foldl (bulkStep outcome) c) c
        = ts.foldl (bulkStep outcome) c := by
  intro n
  induction n with
  | zero =>
    intro ts hlen c
    have : ts = [] := List.eq_nil_of_length_eq_zero (by omega)
    subst this
    rw [toBatches]
    rfl
  | succ n ih =>
    intro ts hlen c
    cases ts with
    | nil => rw [toBatches]; rfl
    | cons t rest =>
      rw [toBatches]
      simp only [List.foldl_cons]
      rw [ih ((t :: rest).drop BATCH_SIZE) (by simp [BATCH_SIZE] at hlen ⊢; omega)]
      rw [← List.foldl_append]
      rw [List.take_append_drop]
      simp only [List.foldl_cons]

/-- The route bulk processing counters equal the per-item counts over
the whole template list. -/
theorem bulkProcess_spec (outcome : Template → Except String Unit)
    (ts : List Template) :
    bulkProcessTemplates outcome ts =
      { processedCount := ts.length
        successCount := exportSuccesses outcome ts
        errorCount := (exportErrors outcome ts).length } := by
  rw [bulkProcessTemplates, toBatches_foldl outcome ts.length ts le_rfl, bulkFold_spec]
  simp

/-- Over items that all succeed, there are no error records and every
item is counted successful. -/
theorem all_ok_counts (outcome : Template → Except String Unit) :
    ∀ ts : List Template, (∀ t ∈ ts, outcome t = Except.ok ()) →
      exportSuccesses outcome ts = ts.length ∧ exportErrors outcome ts = [] := by
  intro ts
  induction ts with
  | nil => intro _; simp [exportSuccesses, exportErrors]
  | cons t rest ih =>
    intro hall
    have ht : outcome t = Except.ok () := hall t (by simp)
    have hrest := ih (fun u hu => hall u (by simp [hu]))
    constructor
    · have h1 : exportSuccesses outcome (t :: rest)
          = exportSuccesses outcome rest + 1 := by
        simp [exportSuccesses, List.filter_cons, ht, Except.isOk, Except.toBool]
      rw [h1, hrest.1]
      simp
    · have h2 : exportErrors outcome (t :: rest) = exportErrors outcome rest := by
        simp [exportErrors, List.filterMap_cons, ht]
      rw [h2, hrest.2]

/-- **C7.** An exception raised while exporting one item never aborts
the run: for any surrounding items `pre`/`post` that export cleanly and
one item `bad` whose export throws `msg`, the library
`exportAllTemplates` records exactly `{templateId, error}` for the bad
item, increments the fail counter once, counts every other item
successful — so every subsequent item was still attempted — and the
route `bulkExportTemplates` batch counters agree: all
`pre.length + 1 + post.length` items are processed, with exactly one
error (in a batch of 5 where item 3 raises: failed = 1,
successful = 4). -/
theorem C7_single_failure_does_not_abort (pre post : List Template) (bad : Template)
    (msg : String) (outcome : Template → Except String Unit)
    (hbad : outcome bad = Except.error msg)
    (hok : ∀ t ∈ pre ++ post, outcome t = Except.ok ()) :
    (exportAllTemplates (pre ++ bad :: post) outcome).failed = 1 ∧
    (exportAllTemplates (pre ++ bad :: post) outcome).successful
        = pre.length + post.length ∧
    (exportAllTemplates (pre ++ bad :: post) outcome).errors = [(bad.id, msg)] ∧
    (bulkProcessTemplates outcome (pre ++ bad :: post)).processedCount
        = pre.length + 1 + post.length ∧
    (bulkProcessTemplates outcome (pre ++ bad :: post)).successCount
        = pre.length + post.length ∧
    (bulkProcessTemplates outcome (pre ++ bad :: post)).errorCount = 1 := by
  have hpre := all_ok_counts outcome pre
    (fun t ht => hok t (List.mem_append_left _ ht))
  have hpost := all_ok_counts outcome post
    (fun t ht => hok t (List.mem_append_right _ ht))
  have hSbad : exportSuccesses outcome (bad :: post) = exportSuccesses outcome post := by
    simp [exportSuccesses, List.filter_cons, hbad, Except.isOk, Except.toBool]
  have hEbad : exportErrors outcome (bad :: post)
      = (bad.id, msg) :: exportErrors outcome post := by
    simp [exportErrors, List.filterMap_cons, hbad]
  have hS : exportSuccesses outcome (pre ++ bad :: post)
      = pre.length + post.length := by
    simp only [exportSuccesses, List.filter_append, List.length_append]
    have h1 := hpre.1
    have h2 : exportSuccesses outcome (bad :: post) = post.length := by
      rw [hSbad, hpost.1]
    simp only [exportSuccesses] at h1 h2
    omega
  have hE : exportErrors outcome (pre ++ bad :: post) = [(bad.id, msg)] := by
    simp only [exportErrors, List.filterMap_append]
    have h1 := hpre.2
    have h2 : exportErrors outcome (bad :: post) = [(bad.id, msg)] := by
      rw [hEbad, hpost.2]
    simp only [exportErrors] at h1 h2
    rw [h1, h2]
    simp
  rw [exportAllTemplates, exportAll_foldl, bulkProcess_spec, hS, hE]
  refine ⟨rfl, by simp, by simp, by simp; omega, rfl, rfl⟩

/-- Witness for C7: the batch of five templates 1–5 in which item 3
raises; the run reports failed = 1, successful = 4, and all five items
processed. -/
theorem C7_single_failure_does_not_abort_witness :
    ((fun (t : Template) =>
        if t.id = 3 then Except.error "boom" else Except.ok ()) ⟨3, "c"⟩
      = Except.error "boom" ∧
     ∀ t ∈ ([⟨1, "a"⟩, ⟨2, "b"⟩] ++ [⟨4, "d"⟩, ⟨5, "e"⟩] : List Template),
       (fun (t : Template) =>
         if t.id = 3 then Except.error "boom" else Except.ok ()) t = Except.ok ()) ∧
    (exportAllTemplates ([⟨1, "a"⟩, ⟨2, "b"⟩] ++ ⟨3, "c"⟩ :: [⟨4, "d"⟩, ⟨5, "e"⟩])
        (fun t => if t.id = 3 then Except.error "boom" else Except.ok ())).failed
      = 1 ∧
    (exportAllTemplates ([⟨1, "a"⟩, ⟨2, "b"⟩] ++ ⟨3, "c"⟩ :: [⟨4, "d"⟩, ⟨5, "e"⟩])
        (fun t => if t.id = 3 then Except.error "boom" else Except.ok ())).successful
      = 4 ∧
    (bulkProcessTemplates
        (fun t => if t.id = 3 then Except.error "boom" else Except.ok ())
        ([⟨1, "a"⟩, ⟨2, "b"⟩] ++ ⟨3, "c"⟩ :: [⟨4, "d"⟩, ⟨5, "e"⟩])).processedCount
      = 5 := by
  have happ := C7_single_failure_does_not_abort [⟨1, "a"⟩, ⟨2, "b"⟩]
    [⟨4, "d"⟩, ⟨5, "e"⟩] ⟨3, "c"⟩ "boom"
    (fun t => if t.id = 3 then Except.error "boom" else Except.ok ())
    rfl (by intro t ht; fin_cases ht <;> rfl)
  exact ⟨⟨rfl, by intro t ht; fin_cases ht <;> rfl⟩, happ.1, happ.2.1, happ.2.2.2.1⟩

/-- **C3 (counterexample).** For a template whose HTML retrieval throws,
the library `exportTemplate` writes `error.txt` but catches the error
without re-throwing, so the orchestrator `exportAllTemplates` counts the
item as *successful*: the ExportResult is
`{total: 1, successful: 1, failed: 0, errors: []}`, not a per-item
failure. -/
theorem C3_counterexample :
    exportTemplate (fun _ => Except.error "boom") ⟨7, "T"⟩
        = Except.ok ["metadata.json", "error.txt"] ∧
    exportAllTemplates [⟨7, "T"⟩] (exportOutcome (fun _ => Except.error "boom"))
        = { total := 1, successful := 1, failed := 0, errors := [] } :=
  ⟨rfl, rfl⟩

/-- **C3 (amended).** If HTML retrieval for a template fails, both
exporters write the `error.txt` marker in place of the HTML file; the
route `processTemplate` re-throws, so the route orchestrator counts the
item as a per-item failure (`errorCount = 1`), but the library
`exportTemplate` swallows the error, so `exportAllTemplates` counts the
item as successful, with no error entry — even though the metadata file
exists in both cases. -/
theorem C3_error_marker_and_counting (t : Template) (msg : String)
    (fetchContent : Nat → Except String String)
    (hf : fetchContent t.id = Except.error msg) :
    exportTemplate fetchContent t = Except.ok ["metadata.json", "error.txt"] ∧
    processTemplate fetchContent t
        = (["metadata.json", "metadata.txt", "error.txt"], Except.error msg) ∧
    bulkProcessTemplates (fun u => (processTemplate fetchContent u).2) [t]
        = { processedCount := 1, successCount := 0, errorCount := 1 } ∧
    exportAllTemplates [t] (exportOutcome fetchContent)
        = { total := 1, successful := 1, failed := 0, errors := [] } := by
  refine ⟨?_, ?_, ?_, ?_⟩
  · rw [exportTemplate, hf]
    rfl
  · rw [processTemplate, hf]
    rfl
  · rw [bulkProcess_spec]
    have h2 : (processTemplate fetchContent t).2 = Except.error msg := by
      rw [processTemplate, hf]
    simp [exportSuccesses, exportErrors, List.filter_cons, List.filterMap_cons,
      h2, Except.isOk, Except.toBool]
  · have ho : exportOutcome fetchContent t = Except.ok () := by
      rw [exportOutcome, exportTemplate, hf]
      rfl
    simp [exportAllTemplates, exportStep, ho]

/-- Witness for C3 at a concrete template and failing fetch. -/
theorem C3_error_marker_and_counting_witness :
    ((fun (_ : Nat) => (Except.error "down" : Except String String)) 9
        = Except.error "down") ∧
    processTemplate (fun _ => Except.error "down") ⟨9, "X"⟩
        = (["metadata.json", "metadata.txt", "error.txt"], Except.error "down") ∧
    bulkProcessTemplates
        (fun u => (processTemplate (fun _ => Except.error "down") u).2) [⟨9, "X"⟩]
        = { processedCount := 1, successCount := 0, errorCount := 1 } ∧
    exportAllTemplates [⟨9, "X"⟩] (exportOutcome (fun _ => Except.error "down"))
        = { total := 1, successful := 1, failed := 0, errors := [] } := by
  have happ := C3_error_marker_and_counting ⟨9, "X"⟩ "down"
    (fun _ => Except.error "down") rfl
  exact ⟨rfl, happ.2.1, happ.2.2.1, happ.2.2.2⟩
